import Mathlib

/-!
Shallow embedding of `src/mock_app.py`: a three-tier request simulator
(frontend → backend → database) that emits correlated logs and trace spans
with random fault injection, driven by an infinite loop.

Modelling conventions:
* Python's global `random` stream is a function `ℕ → ℚ` of draws in `[0,1)`
  together with a cursor; `random.random()` and `random.uniform(a, b)` each
  consume one draw (the `uniform` value only feeds `time.sleep`, which is
  observationally a no-op, but the draw is consumed to keep the stream
  aligned with the source).
* A span's trace id is an opaque `Nat`; the frontend's root span fixes it
  for the whole request, and `start_as_current_span` in the children keeps
  it ambient, so every tier sees the same id.
* Each service function returns its Python return value (`Option Bool`:
  `none` is Python's implicit `None`), the advanced random stream, the log
  records it emitted (in order), the child spans it closed (in closing
  order) and its own closed span.
* Floats are modelled as exact rationals: the fault thresholds 0.03, 0.05,
  0.08 and the comparison `random.random() < p` are order-only, so no float
  rounding artifact is observable at these constants.
-/

namespace MockApp

/-- Log level of a Python `logging` call: `.info` or `.error`. -/
inductive Level where
  | info
  | error
deriving DecidableEq, Repr, BEq

/-- OpenTelemetry span kind as used by the source (`SERVER`, `INTERNAL`). -/
inductive SpanKind where
  | server
  | internal
deriving DecidableEq, Repr, BEq

/-- Terminal status of a span: `Unset` (never set explicitly before the
`with` block closes it), `Ok` (`trace.Status(trace.StatusCode.OK)`), or
`Error reason` (`trace.Status(trace.StatusCode.ERROR, reason)`). -/
inductive SpanStatus where
  | unset
  | ok
  | error (reason : String)
deriving DecidableEq, Repr, BEq

/-- A span counts as non-failed when its status is `Ok` or `Unset`. -/
def SpanStatus.okOrUnset : SpanStatus → Bool
  | .unset => true
  | .ok => true
  | .error _ => false

/-- One log record handed to the sink: the logger channel (`service`), the
level, the message, and the `trace_id` tag attached via `extra`. -/
structure LogRecord where
  service : String
  level : Level
  message : String
  traceId : String
deriving DecidableEq, Repr, BEq

/-- One closed span as exported: name, kind, the trace id it belongs to and
its terminal status. -/
structure ClosedSpan where
  name : String
  kind : SpanKind
  traceId : Nat
  status : SpanStatus
deriving DecidableEq, Repr, BEq

/-- The global random stream: an infinite sequence of draws in `[0,1)` and a
cursor pointing at the next one. -/
structure Rng where
  draws : ℕ → ℚ
  idx : ℕ

/-- `random.random()`: read the next draw, advance the cursor. -/
def Rng.next (r : Rng) : ℚ × Rng :=
  (r.draws r.idx, ⟨r.draws, r.idx + 1⟩)

/-- `random.uniform(a, b)`: one draw `u` mapped affinely into `[a, b]`. -/
def Rng.uniform (r : Rng) (a b : ℚ) : ℚ × Rng :=
  (a + (b - a) * r.draws r.idx, ⟨r.draws, r.idx + 1⟩)

/-- Python truthiness of a `bool`-or-`None` value, as tested by
`if not db_success` / `if not backend_success`. -/
def truthy : Option Bool → Bool
  | some b => b
  | none => false

/-- Hex digit character: `0`-`9` then `a`-`f`, as Python's `format(_, 'x')`. -/
def hexChar (d : ℕ) : Char :=
  if d < 10 then Char.ofNat (48 + d) else Char.ofNat (87 + d)

/-- Big-endian hex digits of `n` (empty for 0); structural on a fuel that is
large enough whenever `fuel ≥ n`. -/
def hexRepAux : ℕ → ℕ → List Char
  | 0, _ => []
  | fuel + 1, n => if n = 0 then [] else hexRepAux fuel (n / 16) ++ [hexChar (n % 16)]

/-- Big-endian hex digits of `n`, no leading zeros (empty for 0). -/
def hexRep (n : ℕ) : List Char :=
  hexRepAux n n

/-- Python's `format(n, '032x')`: lowercase hex, left-padded with `'0'` to
32 characters. -/
def format032x (n : ℕ) : String :=
  ⟨List.replicate (32 - (hexRep n).length) '0' ++ hexRep n⟩

/-- Embedding of `get_trace_id` (lines 62-68). `trace.get_current_span()`
is modelled as the ambient trace id of the active span, or `none` when no
span is active; with a span active it returns the span context's trace id
as 32 lowercase hex digits, otherwise the sentinel `"unknown"`. -/
def get_trace_id (current : Option ℕ) : String :=
  match current with
  | some traceId => format032x traceId
  | none => "unknown"

/-- A character is a lowercase hex digit. -/
def isHexCh (c : Char) : Bool :=
  c.isDigit || (97 ≤ c.toNat && c.toNat ≤ 102)

/-- What one service function call produced: its Python return value, the
advanced random stream, its emitted log records in order, the child spans
closed during the call in closing order, and its own span. -/
structure OpOut where
  ret : Option Bool
  rng : Rng
  logs : List LogRecord
  childSpans : List ClosedSpan
  span : ClosedSpan

/-- All spans closed by the call, in closing order (children first, the
function's own span last, matching `with` block exits). -/
def OpOut.spans (o : OpOut) : List ClosedSpan :=
  o.childSpans ++ [o.span]

/-- Embedding of `database_operation` (lines 71-82): sleeps
`random.uniform(0.05, 0.15)`, then with the next draw below `0.08` marks
its span `Error "DB connection failed"`, logs an error and returns `False`;
otherwise logs `"Query successful"` and returns `True` (span left unset). -/
def database_operation (traceId : ℕ) (r0 : Rng) : OpOut :=
  let (_delay, r1) := r0.uniform (mkRat 5 100) (mkRat 15 100)
  let (roll, r2) := r1.next
  if roll < mkRat 8 100 then
    { ret := some false
      rng := r2
      logs := [⟨"database", .error, "DB connection failed", get_trace_id (some traceId)⟩]
      childSpans := []
      span := ⟨"db_query", .internal, traceId, .error "DB connection failed"⟩ }
  else
    { ret := some true
      rng := r2
      logs := [⟨"database", .info, "Query successful", get_trace_id (some traceId)⟩]
      childSpans := []
      span := ⟨"db_query", .internal, traceId, .unset⟩ }

/-- Embedding of `backend_process` (lines 84-103): with the next draw below
`0.05` fails locally (`Error "Cache service unavailable"`); otherwise sleeps
`random.uniform(0.1, 0.3)`, calls `database_operation`, and on its falsy
return marks its own span `Error "Downstream DB error"` and returns `False`;
on success logs `"Backend processing complete"` and returns `True`. -/
def backend_process (traceId : ℕ) (r0 : Rng) : OpOut :=
  let (roll, r1) := r0.next
  if roll < mkRat 5 100 then
    { ret := some false
      rng := r1
      logs := [⟨"backend", .error, "Cache service unavailable", get_trace_id (some traceId)⟩]
      childSpans := []
      span := ⟨"backend_processing", .internal, traceId, .error "Cache service unavailable"⟩ }
  else
    let (_delay, r2) := r1.uniform (mkRat 10 100) (mkRat 30 100)
    let db := database_operation traceId r2
    if !truthy db.ret then
      { ret := some false
        rng := db.rng
        logs := db.logs ++
          [⟨"backend", .error, "Backend failed due to downstream DB error",
            get_trace_id (some traceId)⟩]
        childSpans := db.childSpans ++ [db.span]
        span := ⟨"backend_processing", .internal, traceId, .error "Downstream DB error"⟩ }
    else
      { ret := some true
        rng := db.rng
        logs := db.logs ++
          [⟨"backend", .info, "Backend processing complete", get_trace_id (some traceId)⟩]
        childSpans := db.childSpans ++ [db.span]
        span := ⟨"backend_processing", .internal, traceId, .unset⟩ }

/-- Embedding of `frontend_request` (lines 105-126): opens the root
`"/api/users"` server span (fixing the request's trace id), logs the entry
info record, then with the next draw below `0.03` fails auth
(`Error "Invalid user session"`) and returns `None` without calling the
backend; otherwise calls `backend_process` and converts its boolean into
the root span status (`Error "Backend error"` or `Ok`). Every `return` in
the Python function is bare, so the return value is always `None`. -/
def frontend_request (traceId : ℕ) (r0 : Rng) : OpOut :=
  let tid := get_trace_id (some traceId)
  let entryLog : LogRecord := ⟨"frontend", .info, "Received request for /api/users", tid⟩
  let (roll, r1) := r0.next
  if roll < mkRat 3 100 then
    { ret := none
      rng := r1
      logs := [entryLog, ⟨"frontend", .error, "Invalid user session token", tid⟩]
      childSpans := []
      span := ⟨"/api/users", .server, traceId, .error "Invalid user session"⟩ }
  else
    let b := backend_process traceId r1
    if !truthy b.ret then
      { ret := none
        rng := b.rng
        logs := [entryLog] ++ b.logs ++
          [⟨"frontend", .error, "Request to /api/users failed due to backend error", tid⟩]
        childSpans := b.childSpans ++ [b.span]
        span := ⟨"/api/users", .server, traceId, .error "Backend error"⟩ }
    else
      { ret := none
        rng := b.rng
        logs := [entryLog] ++ b.logs ++ [⟨"frontend", .info, "Transaction successful", tid⟩]
        childSpans := b.childSpans ++ [b.span]
        span := ⟨"/api/users", .server, traceId, .ok⟩ }

/-- One iteration body of `main_loop` (lines 128-136): `behavior` is what the
`frontend_request()` call did — a normal return carrying its observables, or
a raised exception (`Except.error` with the exception text `e`). The `except
Exception` clause converts the latter into a single error record on the
`"my-app"` channel with the literal tag `trace_id = "unknown"`. -/
def main_loop_iter (res : Except String OpOut) : List LogRecord :=
  match res with
  | .ok out => out.logs
  | .error e => [⟨"my-app", .error, "An unexpected error occurred: " ++ e, "unknown"⟩]

/-- State of the driver loop: iterations completed, log records emitted so
far, and whether the loop is still running. -/
structure DriverState where
  iter : ℕ
  logs : List LogRecord
  running : Bool
deriving Repr

/-- Driver state when `main_loop` is entered. -/
def driver_init : DriverState := ⟨0, [], true⟩

/-- One pass of the `while True` body: run `frontend_request` (its outcome
for iteration `n` given by `behavior n`), append the iteration's log
records, and keep running — no branch of the body leaves the loop. -/
def driver_step (behavior : ℕ → Except String OpOut) (s : DriverState) : DriverState :=
  if s.running then
    { iter := s.iter + 1
      logs := s.logs ++ main_loop_iter (behavior s.iter)
      running := true }
  else s

/-- Driver state after `n` passes of the loop body. -/
def driver_run (behavior : ℕ → Except String OpOut) : ℕ → DriverState
  | 0 => driver_init
  | n + 1 => driver_step behavior (driver_run behavior n)

/-- The three `print` lines of the `__main__` block (lines 139-141). -/
def startup_banner : List String :=
  ["Starting mock application with distributed tracing...",
   "Sending logs to Loki at http://127.0.0.1:3100",
   "Sending traces to Tempo at http://127.0.0.1:4318"]

/-- Observables of one whole process run. -/
structure RunResult where
  console : List String
  logs : List LogRecord
  cleanExit : Bool

/-- Embedding of the `__main__` block (lines 138-142) together with the fate
of an external interrupt delivered after `interruptAt` loop iterations: the
three startup lines are printed and `main_loop()` runs unprotected. The
loop's `except Exception` clause does not catch `KeyboardInterrupt` (it
derives from `BaseException`, not `Exception`), and the module body wraps
`main_loop()` in no handler, so the interrupt propagates out of the process:
nothing further is printed to the console and the exit is not clean. -/
def program_run (behavior : ℕ → Except String OpOut) (interruptAt : ℕ) : RunResult :=
  { console := startup_banner
    logs := (driver_run behavior interruptAt).logs
    cleanExit := false }

/-- A draw stream where every roll is `1/2`: no fault fires at any tier. -/
def rngHalf : Rng := ⟨fun _ => mkRat 1 2, 0⟩

/-- A draw stream whose first roll is `0`: the frontend auth fault fires. -/
def rngAuthFire : Rng := ⟨fun _ => 0, 0⟩

/-- Seen from `frontend_request`: draw 0 is the auth roll, draw 1 the cache
roll, draws 2 and 3 the two sleeps, draw 4 the DB roll — only the DB fault
fires here. -/
def rngDbOnly : Rng := ⟨fun i => if i = 4 then mkRat 1 100 else mkRat 1 2, 0⟩

/-- Seen from `backend_process`: draw 0 is the cache roll, draws 1 and 2 the
sleeps, draw 3 the DB roll — only the DB fault fires here. -/
def rngDbAfterBackend : Rng := ⟨fun i => if i = 3 then mkRat 1 100 else mkRat 1 2, 0⟩

/-- Seen from `database_operation`: draw 0 is the sleep, draw 1 the DB roll,
which fires here. -/
def rngDbDirect : Rng := ⟨fun i => if i = 1 then mkRat 1 100 else mkRat 1 2, 0⟩

/-! Helper lemmas about the hex formatting used by `get_trace_id`. -/

theorem hexChar_hex : ∀ d < 16, isHexCh (hexChar d) = true := by decide

theorem hexRepAux_length_le (fuel : ℕ) :
    ∀ k n : ℕ, n < 16 ^ k → (hexRepAux fuel n).length ≤ k := by
  induction fuel with
  | zero => intro k n _; simp [hexRepAux]
  | succ f ih =>
    intro k n hn
    by_cases h0 : n = 0
    · simp [hexRepAux, h0]
    · cases k with
      | zero => simp at hn; omega
      | succ k =>
        have hdiv : n / 16 < 16 ^ k := by
          rw [Nat.div_lt_iff_lt_mul (by norm_num : (0:ℕ) < 16)]
          calc n < 16 ^ (k + 1) := hn
            _ = 16 ^ k * 16 := by ring
        have hlen := ih k (n / 16) hdiv
        simp [hexRepAux, h0]
        omega

theorem hexRepAux_hex (fuel : ℕ) :
    ∀ n c, c ∈ hexRepAux fuel n → isHexCh c = true := by
  induction fuel with
  | zero => intro n c hc; simp [hexRepAux] at hc
  | succ f ih =>
    intro n c hc
    by_cases h0 : n = 0
    · simp [hexRepAux, h0] at hc
    · simp only [hexRepAux, h0, if_false, ite_false, List.mem_append, List.mem_singleton] at hc
      rcases hc with hc | hc
      · exact ih _ _ hc
      · subst hc; exact hexChar_hex _ (Nat.mod_lt _ (by norm_num))

/-- C9: when no span is active `get_trace_id` returns the sentinel
`"unknown"`; with a span active it returns that span's trace id rendered by
`format(_, '032x')`, a string of exactly 32 lowercase hexadecimal digits
(trace ids are 128-bit, hence below `16 ^ 32`). -/
theorem C9_get_trace_id (t : ℕ) (h : t < 16 ^ 32) :
    get_trace_id none = "unknown" ∧
    get_trace_id (some t) = format032x t ∧
    (get_trace_id (some t)).length = 32 ∧
    (get_trace_id (some t)).data.all isHexCh = true := by
  have hlen : (hexRep t).length ≤ 32 := hexRepAux_length_le t 32 t h
  refine ⟨rfl, rfl, ?_, ?_⟩
  · show (format032x t).length = 32
    simp only [format032x, String.length, List.length_append, List.length_replicate]
    omega
  · show (format032x t).data.all isHexCh = true
    simp only [format032x, List.all_append, List.all_eq_true, Bool.and_eq_true]
    constructor
    · intro c hc
      have hc0 := List.eq_of_mem_replicate hc
      subst hc0; decide
    · intro c hc
      exact hexRepAux_hex t t c hc

/-- C9 witness: `get_trace_id` at a concrete trace id and with no span. -/
theorem C9_witness :
    get_trace_id none = "unknown" ∧
    get_trace_id (some 255) = format032x 255 ∧
    (get_trace_id (some 255)).length = 32 ∧
    (get_trace_id (some 255)).data.all isHexCh = true :=
  C9_get_trace_id 255 (by decide)

/-- C6: `database_operation` returns failure exactly when its fault roll
(the draw after the sleep draw) is below `0.08`; on failure its span is
`Error "DB connection failed"` and it emits exactly one error record, on
success it emits exactly one `"Query successful"` info record and returns
`True`. -/
theorem C6_database_fault (t : ℕ) (r : Rng) :
    (truthy (database_operation t r).ret = false ↔ r.draws (r.idx + 1) < mkRat 8 100) ∧
    (r.draws (r.idx + 1) < mkRat 8 100 →
      (database_operation t r).span.status = SpanStatus.error "DB connection failed" ∧
      (database_operation t r).logs =
        [⟨"database", .error, "DB connection failed", format032x t⟩] ∧
      (database_operation t r).ret = some false) ∧
    (¬ r.draws (r.idx + 1) < mkRat 8 100 →
      (database_operation t r).logs =
        [⟨"database", .info, "Query successful", format032x t⟩] ∧
      (database_operation t r).ret = some true) := by
  refine ⟨?_, ?_, ?_⟩
  · simp only [database_operation, Rng.next, Rng.uniform]
    split_ifs with h <;> simp [truthy, h]
  · intro h
    simp only [database_operation, Rng.next, Rng.uniform]
    rw [if_pos h]
    exact ⟨rfl, rfl, rfl⟩
  · intro h
    simp only [database_operation, Rng.next, Rng.uniform]
    rw [if_neg h]
    exact ⟨rfl, rfl⟩

/-- C6 witness: with the DB roll drawn as `0.01` the operation fails with
span status `Error "DB connection failed"`. -/
theorem C6_witness :
    (database_operation 0 rngDbDirect).span.status =
      SpanStatus.error "DB connection failed" :=
  ((C6_database_fault 0 rngDbDirect).2.1 (by decide)).1

/-- C3: when the backend's local cache roll misses and `database_operation`
returns failure, the backend span gets status `Error "Downstream DB error"`
(its own reason string, not the database's `"DB connection failed"`) and the
backend returns `False`. -/
theorem C3_backend_downstream (t : ℕ) (r : Rng)
    (hcache : ¬ r.draws r.idx < mkRat 5 100)
    (hdb : truthy (database_operation t ⟨r.draws, r.idx + 2⟩).ret = false) :
    (backend_process t r).span.status = SpanStatus.error "Downstream DB error" ∧
    (backend_process t r).span.status ≠ SpanStatus.error "DB connection failed" ∧
    (backend_process t r).ret = some false := by
  have hdb2 : truthy (database_operation t ⟨r.draws, r.idx + 1 + 1⟩).ret = false := hdb
  simp only [backend_process, Rng.next, Rng.uniform]
  rw [if_neg hcache]
  simp [hdb2]

/-- C3 witness: cache roll `0.5`, DB roll `0.01` — the backend span carries
the backend's own downstream reason string. -/
theorem C3_witness :
    (backend_process 0 rngDbAfterBackend).span.status =
      SpanStatus.error "Downstream DB error" :=
  (C3_backend_downstream 0 rngDbAfterBackend (by decide) (by decide)).1

/-- C1 counterexample: on a request in which no fault roll fires (every draw
is `0.5`, above all three thresholds) the frontend span status is `Ok`, but
the request emits 4 Info logs, not 3: the frontend logs Info twice (the
entry record and `"Transaction successful"`), on top of one Info each from
the database and the backend. -/
theorem C1_counterexample :
    (frontend_request 0 rngHalf).span.status = SpanStatus.ok ∧
    ((frontend_request 0 rngHalf).logs.filter (fun l => l.level == Level.info)).length = 4 ∧
    ¬ ((frontend_request 0 rngHalf).logs.filter (fun l => l.level == Level.info)).length = 3 := by
  decide

/-- C1 (amended): for a request in which no fault roll fires at any tier,
the frontend span status is `Ok`, exactly 4 Info logs are emitted (two by
the frontend — the entry record and `"Transaction successful"` — one by the
database, one by the backend) and no other log, and exactly 3 spans are
closed, all with status `Ok` or `Unset`. -/
theorem C1_no_fault_scenario (t : ℕ) (r : Rng)
    (hauth : ¬ r.draws r.idx < mkRat 3 100)
    (hcache : ¬ r.draws (r.idx + 1) < mkRat 5 100)
    (hdb : ¬ r.draws (r.idx + 4) < mkRat 8 100) :
    (frontend_request t r).span.status = SpanStatus.ok ∧
    (frontend_request t r).logs =
      [⟨"frontend", .info, "Received request for /api/users", format032x t⟩,
       ⟨"database", .info, "Query successful", format032x t⟩,
       ⟨"backend", .info, "Backend processing complete", format032x t⟩,
       ⟨"frontend", .info, "Transaction successful", format032x t⟩] ∧
    ((frontend_request t r).logs.filter (fun l => l.level == Level.info)).length = 4 ∧
    (frontend_request t r).spans.length = 3 ∧
    (frontend_request t r).spans.all (fun s => s.status.okOrUnset) = true := by
  have hcache1 : ¬ r.draws (r.idx + 1) < mkRat 5 100 := hcache
  have hdb4 : ¬ r.draws (r.idx + 1 + 1 + 1 + 1) < mkRat 8 100 := hdb
  simp only [frontend_request, backend_process, database_operation, Rng.next, Rng.uniform,
    get_trace_id, OpOut.spans]
  rw [if_neg hauth, if_neg hcache1, if_neg hdb4]
  exact ⟨rfl, rfl, rfl, rfl, rfl⟩

/-- C1 witness: the amended scenario at trace id 7 with every draw `0.5`. -/
theorem C1_witness :
    (frontend_request 7 rngHalf).span.status = SpanStatus.ok ∧
    (frontend_request 7 rngHalf).spans.length = 3 :=
  have h := C1_no_fault_scenario 7 rngHalf (by decide) (by decide) (by decide)
  ⟨h.1, h.2.2.2.1⟩

/-- C2: every log record emitted during a request carries the root span's
trace id rendered as 32 hex digits — all tiers of one request log the same
trace id — and the log record emitted by the driver's exception handler
carries the sentinel `"unknown"`. -/
theorem C2_log_trace_correlation (t : ℕ) (r : Rng) (e : String) :
    (frontend_request t r).logs.all (fun l => l.traceId == format032x t) = true ∧
    main_loop_iter (Except.error e) =
      [⟨"my-app", Level.error, "An unexpected error occurred: " ++ e, "unknown"⟩] := by
  constructor
  · simp only [frontend_request, backend_process, database_operation, Rng.next, Rng.uniform,
      get_trace_id]
    split_ifs <;> simp
  · rfl

/-- C4: when the auth roll misses, the frontend span status is exactly the
image of the backend's boolean (`Error "Backend error"` on failure, `Ok` on
success); when the auth roll fires, the backend is never invoked — no child
span is closed, every log of the request is the frontend's own, and only
the single auth draw is consumed from the random stream. -/
theorem C4_frontend_aggregation (t : ℕ) (r : Rng) :
    (¬ r.draws r.idx < mkRat 3 100 →
      (truthy (backend_process t ⟨r.draws, r.idx + 1⟩).ret = false →
        (frontend_request t r).span.status = SpanStatus.error "Backend error") ∧
      (truthy (backend_process t ⟨r.draws, r.idx + 1⟩).ret = true →
        (frontend_request t r).span.status = SpanStatus.ok)) ∧
    (r.draws r.idx < mkRat 3 100 →
      (frontend_request t r).childSpans = [] ∧
      (frontend_request t r).logs.all (fun l => l.service == "frontend") = true ∧
      (frontend_request t r).rng.idx = r.idx + 1) := by
  constructor
  · intro hauth
    constructor
    · intro hb
      simp only [frontend_request, Rng.next]
      rw [if_neg hauth]
      simp [hb]
    · intro hb
      simp only [frontend_request, Rng.next]
      rw [if_neg hauth]
      simp [hb]
  · intro hauth
    simp only [frontend_request, Rng.next]
    rw [if_pos hauth]
    exact ⟨rfl, by simp, rfl⟩

/-- C4 witness: with every draw `0.5` the auth roll misses, the backend
succeeds, and the frontend span status is `Ok`. -/
theorem C4_witness :
    (frontend_request 0 rngHalf).span.status = SpanStatus.ok :=
  ((C4_frontend_aggregation 0 rngHalf).1 (by decide)).2 (by decide)

/-- C5: when the auth roll fires, the frontend span is
`Error "Invalid user session"`, no child span is closed (neither backend nor
database runs — only the one auth draw is consumed), and the only log
records of the request are the frontend's entry Info and its auth Error. -/
theorem C5_auth_fault_frame (t : ℕ) (r : Rng)
    (hauth : r.draws r.idx < mkRat 3 100) :
    (frontend_request t r).span.status = SpanStatus.error "Invalid user session" ∧
    (frontend_request t r).childSpans = [] ∧
    (frontend_request t r).logs =
      [⟨"frontend", .info, "Received request for /api/users", format032x t⟩,
       ⟨"frontend", .error, "Invalid user session token", format032x t⟩] ∧
    (frontend_request t r).logs.all (fun l => l.service == "frontend") = true ∧
    (frontend_request t r).rng.idx = r.idx + 1 := by
  simp only [frontend_request, Rng.next, get_trace_id]
  rw [if_pos hauth]
  exact ⟨rfl, rfl, rfl, by simp, rfl⟩

/-- C5 witness: the auth fault forced by a zero draw at trace id 3. -/
theorem C5_witness :
    (frontend_request 3 rngAuthFire).span.status =
      SpanStatus.error "Invalid user session" ∧
    (frontend_request 3 rngAuthFire).childSpans = [] :=
  have h := C5_auth_fault_frame 3 rngAuthFire (by decide)
  ⟨h.1, h.2.1⟩

/-- C7: in every loop iteration an exception raised by the frontend call is
caught by the `except Exception` clause, logged at Error level under the
`"my-app"` channel with trace id `"unknown"`, and swallowed: the loop is
still running after the iteration — indeed after any number of iterations. -/
theorem C7_driver_swallows (behavior : ℕ → Except String OpOut) (n : ℕ) (e : String)
    (h : behavior n = Except.error e) :
    (∀ m, (driver_run behavior m).running = true) ∧
    (driver_run behavior (n + 1)).logs =
      (driver_run behavior n).logs ++
        [⟨"my-app", Level.error, "An unexpected error occurred: " ++ e, "unknown"⟩] := by
  have hrun : ∀ m, (driver_run behavior m).running = true := by
    intro m
    induction m with
    | zero => rfl
    | succ k ih => simp [driver_run, driver_step, ih]
  have hiter : ∀ m, (driver_run behavior m).iter = m := by
    intro m
    induction m with
    | zero => rfl
    | succ k ih => simp [driver_run, driver_step, hrun k, ih]
  refine ⟨hrun, ?_⟩
  show (driver_step behavior (driver_run behavior n)).logs = _
  simp [driver_step, hrun n, hiter n, h, main_loop_iter]

/-- C7 witness: a run whose every frontend call raises; after one iteration
the swallowed exception shows up as the `"my-app"` error record. -/
theorem C7_witness :
    (driver_run (fun _ => Except.error "boom") 1).logs =
      (driver_run (fun _ => Except.error "boom") 0).logs ++
        [⟨"my-app", Level.error, "An unexpected error occurred: " ++ "boom", "unknown"⟩] :=
  (C7_driver_swallows (fun _ => Except.error "boom") 0 "boom" rfl).2

/-- C8 counterexample: at a concrete interrupted run the console holds
exactly the three startup lines — no shutdown notice anywhere — and the
exit is not clean, refuting "handled by exiting the loop cleanly and
printing a shutdown notice": the `__main__` block wraps `main_loop()` in no
handler and `except Exception` does not catch `KeyboardInterrupt`. -/
theorem C8_counterexample :
    (program_run (fun _ => Except.error "interrupted") 3).console =
      ["Starting mock application with distributed tracing...",
       "Sending logs to Loki at http://127.0.0.1:3100",
       "Sending traces to Tempo at http://127.0.0.1:4318"] ∧
    (program_run (fun _ => Except.error "interrupted") 3).cleanExit = false :=
  ⟨rfl, rfl⟩

/-- C8 (amended): the driver terminates only via an external interrupt (the
loop is still running after any number of iterations), but the interrupt is
not handled: it propagates out of the unprotected `main_loop()` call, the
process exit is not clean, and the console output of any interrupted run is
exactly the three-line startup banner — no shutdown notice is printed. -/
theorem C8_termination (behavior : ℕ → Except String OpOut) (k : ℕ) :
    (∀ n, (driver_run behavior n).running = true) ∧
    (program_run behavior k).console = startup_banner ∧
    (program_run behavior k).cleanExit = false := by
  refine ⟨?_, rfl, rfl⟩
  intro n
  induction n with
  | zero => rfl
  | succ m ih => simp [driver_run, driver_step, ih]

/-- C10: on every execution path the frontend returns Python's `None` —
no success/failure boolean reaches the driver — while `backend_process` and
`database_operation` always return an actual boolean to their callers. -/
theorem C10_return_values (t : ℕ) (r : Rng) :
    (frontend_request t r).ret = none ∧
    (backend_process t r).ret.isSome = true ∧
    (database_operation t r).ret.isSome = true := by
  refine ⟨?_, ?_, ?_⟩ <;>
    simp only [frontend_request, backend_process, database_operation, Rng.next, Rng.uniform,
      truthy] <;>
    split_ifs <;> rfl

end MockApp
